import Mathlib

/-
Verification of the slurp S3-bucket enumerator (src/main.go) against its
natural-language specification.  The program's data model, permutation
generator, input validation, probe classification logic, dispatch loop and
concurrency discipline are shallowly embedded below; external collaborators
(the idna normalizer, the tld extractor, the HTTP transport and the
permutation-template file) are passed in as explicit parameters so that each
probe or run is a pure function of the behaviour it observes.
-/

namespace Slurp

/-- Go's `strings.Contains` restricted to lists of characters: `sub` occurs
contiguously inside the second list. -/
def listContainsSub (sub : List Char) : List Char → Bool
  | [] => sub.isEmpty
  | c :: rest => sub.isPrefixOf (c :: rest) || listContainsSub sub rest

/-- Go's `strings.Contains s sub`. -/
def goContains (s sub : String) : Bool :=
  listContainsSub sub.toList s.toList

/-- Domain is used when the `domain` action is used (src/main.go 55-60). -/
structure Domain where
  CN : String
  Domain : String
  Suffix : String
  Raw : String
deriving DecidableEq

/-- Keyword is used when the `keyword` action is used (src/main.go 63-66). -/
structure Keyword where
  Permutation : String
  Keyword : String
deriving DecidableEq

/-- PermutatedDomain is a permutation of the domain (src/main.go 69-72). -/
structure PermutatedDomain where
  Permutation : String
  Domain : Domain
deriving DecidableEq

/-- Modelled from the spec: the StatsAggregator lives in a repository file that
is not under src/ (only its call sites `stats.IncRequests200`, `stats.Add200Link`,
... appear in main.go).  Per spec sections 3 and 4.4 it is four independent
counters — PUBLIC (200), FORBIDDEN (403), NOT_FOUND (404), RATE_LIMITED (503) —
each paired with an ordered list of link strings. -/
structure Stats where
  requests200 : Nat
  requests403 : Nat
  requests404 : Nat
  requests503 : Nat
  links200 : List String
  links403 : List String
  links404 : List String
  links503 : List String
deriving DecidableEq

/-- Modelled from the spec: a fresh aggregator with zero counts and empty lists. -/
def NewStats : Stats := ⟨0, 0, 0, 0, [], [], [], []⟩

/-- Modelled from the spec: increment the PUBLIC counter. -/
def Stats.IncRequests200 (s : Stats) : Stats := { s with requests200 := s.requests200 + 1 }

/-- Modelled from the spec: increment the FORBIDDEN counter. -/
def Stats.IncRequests403 (s : Stats) : Stats := { s with requests403 := s.requests403 + 1 }

/-- Modelled from the spec: increment the NOT_FOUND counter. -/
def Stats.IncRequests404 (s : Stats) : Stats := { s with requests404 := s.requests404 + 1 }

/-- Modelled from the spec: increment the RATE_LIMITED counter. -/
def Stats.IncRequests503 (s : Stats) : Stats := { s with requests503 := s.requests503 + 1 }

/-- Modelled from the spec: append a link to the PUBLIC list. -/
def Stats.Add200Link (s : Stats) (l : String) : Stats := { s with links200 := s.links200 ++ [l] }

/-- Modelled from the spec: append a link to the FORBIDDEN list. -/
def Stats.Add403Link (s : Stats) (l : String) : Stats := { s with links403 := s.links403 ++ [l] }

/-- Modelled from the spec: append a link to the NOT_FOUND list. -/
def Stats.Add404Link (s : Stats) (l : String) : Stats := { s with links404 := s.links404 ++ [l] }

/-- Modelled from the spec: append a link to the RATE_LIMITED list. -/
def Stats.Add503Link (s : Stats) (l : String) : Stats := { s with links503 := s.links503 ++ [l] }

/-- An HTTP response as the prober observes it: the status code and the value of
the `Location` header (empty when the header is absent). -/
structure HttpResponse where
  status : Nat
  location : String
deriving DecidableEq

/-- Result of one HTTP round trip: a transport error carrying Go's error text,
or a response. -/
abbrev NetResult := Except String HttpResponse

/-- Everything network-dependent a single probe task can observe, made explicit:
whether `http.NewRequest` fails for the initial request, the first round trip,
whether `http.NewRequest` fails for the redirect-follow request, and the second
round trip.  Fields that a given control path never reaches are simply unused. -/
structure ProbeNet where
  firstConstructErr : Option String
  first : NetResult
  secondConstructErr : Option String
  second : NetResult

/-- The externally visible outcome of one probe task: the updated Stats value,
whether the candidate was put back on `permutatedQ`, whether `log.Error` ran,
whether the UNKNOWN-status line was logged, how many times the task executed
the final receive on the `sem` channel, and whether the task dereferenced a nil
request (which aborts it before any release or requeue). -/
structure ProbeOutcome where
  stats : Stats
  requeued : Bool
  errorLogged : Bool
  unknownLogged : Bool
  semReleases : Nat
  panicked : Bool
deriving DecidableEq

/-- One probe task of CheckDomainPermutations (src/main.go 283-373) as a
function of the candidate, the network behaviour it observes and the Stats
value it starts from.  Mirrors the source branch for branch: an initial
construction or transport error requeues, logging unless the error text
contains "time"; 200/403/404/503 record into Stats; 307 issues one follow-up
GET to the `Location` value and then handles only 200 and 403; any other
status logs the UNKNOWN line.  A redirect-follow construction error is only
logged (src 325-327) and the nil request is then passed to the client, which
dereferences it: no requeue and no `sem` release happen on that path. -/
def CheckDomainProbe (pd : PermutatedDomain) (net : ProbeNet) (s : Stats) : ProbeOutcome :=
  match net.firstConstructErr with
  | some e =>
      { stats := s, requeued := true, errorLogged := !(goContains e "time"),
        unknownLogged := false, semReleases := 1, panicked := false }
  | none =>
      match net.first with
      | .error e1 =>
          { stats := s, requeued := true, errorLogged := !(goContains e1 "time"),
            unknownLogged := false, semReleases := 1, panicked := false }
      | .ok resp =>
          if resp.status = 200 then
            { stats := (s.IncRequests200).Add200Link pd.Permutation, requeued := false,
              errorLogged := false, unknownLogged := false, semReleases := 1, panicked := false }
          else if resp.status = 307 then
            match net.secondConstructErr with
            | some _ =>
                { stats := s, requeued := false, errorLogged := true,
                  unknownLogged := false, semReleases := 0, panicked := true }
            | none =>
                match net.second with
                | .error e2 =>
                    { stats := s, requeued := true, errorLogged := !(goContains e2 "time"),
                      unknownLogged := false, semReleases := 1, panicked := false }
                | .ok resp2 =>
                    if resp2.status = 200 then
                      { stats := (s.IncRequests200).Add200Link resp.location, requeued := false,
                        errorLogged := false, unknownLogged := false,
                        semReleases := 1, panicked := false }
                    else if resp2.status = 403 then
                      { stats := (s.IncRequests403).Add403Link pd.Permutation, requeued := false,
                        errorLogged := false, unknownLogged := false,
                        semReleases := 1, panicked := false }
                    else
                      { stats := s, requeued := false, errorLogged := false,
                        unknownLogged := false, semReleases := 1, panicked := false }
          else if resp.status = 403 then
            { stats := (s.IncRequests403).Add403Link pd.Permutation, requeued := false,
              errorLogged := false, unknownLogged := false, semReleases := 1, panicked := false }
          else if resp.status = 404 then
            { stats := (s.IncRequests404).Add404Link pd.Permutation, requeued := false,
              errorLogged := false, unknownLogged := false, semReleases := 1, panicked := false }
          else if resp.status = 503 then
            { stats := (s.IncRequests503).Add503Link pd.Permutation, requeued := true,
              errorLogged := false, unknownLogged := false, semReleases := 1, panicked := false }
          else
            { stats := s, requeued := false, errorLogged := false, unknownLogged := true,
              semReleases := 1, panicked := false }

/-- One probe task of CheckKeywordPermutations (src/main.go 394-486): identical
to the domain-mode probe except that after a 307 whose follow-up returns 403 the
FORBIDDEN link recorded is the redirect `Location` value (src 466) rather than
the original permutation. -/
def CheckKeywordProbe (pd : Keyword) (net : ProbeNet) (s : Stats) : ProbeOutcome :=
  match net.firstConstructErr with
  | some e =>
      { stats := s, requeued := true, errorLogged := !(goContains e "time"),
        unknownLogged := false, semReleases := 1, panicked := false }
  | none =>
      match net.first with
      | .error e1 =>
          { stats := s, requeued := true, errorLogged := !(goContains e1 "time"),
            unknownLogged := false, semReleases := 1, panicked := false }
      | .ok resp =>
          if resp.status = 200 then
            { stats := (s.IncRequests200).Add200Link pd.Permutation, requeued := false,
              errorLogged := false, unknownLogged := false, semReleases := 1, panicked := false }
          else if resp.status = 307 then
            match net.secondConstructErr with
            | some _ =>
                { stats := s, requeued := false, errorLogged := true,
                  unknownLogged := false, semReleases := 0, panicked := true }
            | none =>
                match net.second with
                | .error e2 =>
                    { stats := s, requeued := true, errorLogged := !(goContains e2 "time"),
                      unknownLogged := false, semReleases := 1, panicked := false }
                | .ok resp2 =>
                    if resp2.status = 200 then
                      { stats := (s.IncRequests200).Add200Link resp.location, requeued := false,
                        errorLogged := false, unknownLogged := false,
                        semReleases := 1, panicked := false }
                    else if resp2.status = 403 then
                      { stats := (s.IncRequests403).Add403Link resp.location, requeued := false,
                        errorLogged := false, unknownLogged := false,
                        semReleases := 1, panicked := false }
                    else
                      { stats := s, requeued := false, errorLogged := false,
                        unknownLogged := false, semReleases := 1, panicked := false }
          else if resp.status = 403 then
            { stats := (s.IncRequests403).Add403Link pd.Permutation, requeued := false,
              errorLogged := false, unknownLogged := false, semReleases := 1, panicked := false }
          else if resp.status = 404 then
            { stats := (s.IncRequests404).Add404Link pd.Permutation, requeued := false,
              errorLogged := false, unknownLogged := false, semReleases := 1, panicked := false }
          else if resp.status = 503 then
            { stats := (s.IncRequests503).Add503Link pd.Permutation, requeued := true,
              errorLogged := false, unknownLogged := false, semReleases := 1, panicked := false }
          else
            { stats := s, requeued := false, errorLogged := false, unknownLogged := true,
              semReleases := 1, panicked := false }

/-- Go's `fmt.Sprintf` restricted to the shapes the permutation templates use:
each `%s` verb consumes the next argument; a `%s` with no argument left renders
Go's `%!s(MISSING)`; arguments left over when the format is exhausted render
Go's `%!(EXTRA string=..., ...)` trailer.  Other verbs do not occur in the
templates and are treated as literal text. -/
def sprintfGo : List Char → List String → List Char
  | '%' :: 's' :: rest, a :: args => a.toList ++ sprintfGo rest args
  | '%' :: 's' :: rest, [] => "%!s(MISSING)".toList ++ sprintfGo rest []
  | c :: rest, args => c :: sprintfGo rest args
  | [], [] => []
  | [], a :: args => "%!(EXTRA ".toList ++ extraArgsGo (a :: args) ++ [')']
where
  extraArgsGo : List String → List Char
  | [] => []
  | [a] => "string=".toList ++ a.toList
  | a :: b :: rest => "string=".toList ++ a.toList ++ ", ".toList ++ extraArgsGo (b :: rest)

/-- String-level wrapper for `sprintfGo`. -/
def Sprintf (format : String) (args : List String) : String :=
  ⟨sprintfGo format.toList args⟩

/-- Go's `strings.Replace(s, ".", "", -1)`: remove every dot. -/
def removeDots (s : String) : String :=
  ⟨s.toList.filter (fun c => c ≠ '.')⟩

/-- PermutateDomain (src/main.go 495-535), with the contents of the permutation
template file (`permutations` list and `s3_url` field) passed in instead of
read from disk: each template formatted with (domain, s3url), in template
order, then the two extra hostnames of src lines 531-532. -/
def PermutateDomain (domain suffix : String) (s3url : String) (perms : List String) : List String :=
  (perms.map (fun p => Sprintf p [domain, s3url])) ++
    [Sprintf "%s.%s.%s" [domain, suffix, s3url],
     Sprintf "%s.%s" [removeDots (Sprintf "%s.%s" [domain, suffix]), s3url]]

/-- PermutateKeyword (src/main.go 538-574): only the templated substitutions,
no extra variants. -/
def PermutateKeyword (keyword : String) (s3url : String) (perms : List String) : List String :=
  perms.map (fun p => Sprintf p [keyword, s3url])

/-- The two external collaborators PermutateDomainRunner consults per input:
`idna.ToASCII` (which can fail) and the tld extractor's (Root, Tld) result. -/
structure Normalizer where
  toASCII : String → Except String String
  extract : String → String × String

/-- What processing one element of the input list can do: terminate the process
via `log.Fatal`, skip to the next input, or accept a Domain record. -/
inductive InputResult where
  | fatal (msg : String)
  | skipped
  | accepted (d : Domain)
deriving DecidableEq

/-- The per-input body of PermutateDomainRunner's first loop (src/main.go
200-226): empty inputs are passed over; an `idna.ToASCII` error is `log.Fatal`;
an input changed by punycode normalization is skipped; an input whose extracted
Root or Tld is empty is skipped; otherwise a Domain record is accepted. -/
def processDomainInput (nz : Normalizer) (input : String) : InputResult :=
  if input = "" then .skipped
  else
    match nz.toASCII input with
    | .error e => .fatal e
    | .ok puny =>
        if input ≠ puny then .skipped
        else if (nz.extract puny).1 = "" ∨ (nz.extract puny).2 = "" then .skipped
        else .accepted ⟨puny, (nz.extract puny).1, (nz.extract puny).2, input⟩

/-- The whole first loop of PermutateDomainRunner: `.error` means `log.Fatal`
fired on some input (terminating the process), `.ok ds` is the list of Domain
records put on `domainQ`, in input order. -/
def PermutateDomainRunnerValidate (nz : Normalizer) : List String → Except String (List Domain)
  | [] => .ok []
  | input :: rest =>
      match processDomainInput nz input with
      | .fatal e => .error e
      | .skipped => PermutateDomainRunnerValidate nz rest
      | .accepted d => (PermutateDomainRunnerValidate nz rest).map (fun ds => d :: ds)

/-- The run mode selected by the cobra command (src/main.go 78-98). -/
inductive Action where
  | DOMAIN
  | KEYWORD
  | NADA
deriving DecidableEq

/-- How a run can leave the setup-and-validation stage: with an explicit
process exit code, or by proceeding into the permutation-processing phase. -/
inductive RunOutcome where
  | exited (code : Nat)
  | proceeds
deriving DecidableEq

/-- The exit-code logic of `main` together with the target validation
(src/main.go 576-605 and 199-231): a DOMAIN run exits 1 when validation hits
`log.Fatal` or when `domainQ` ends up empty, and otherwise proceeds; a KEYWORD
run performs no such check and always proceeds (PermutateKeywordRunner,
src 257-268, contains no exit); NADA exits 0. -/
def mainOutcome (a : Action) (nz : Normalizer) (domains : List String) : RunOutcome :=
  match a with
  | .DOMAIN =>
      match PermutateDomainRunnerValidate nz domains with
      | .error _ => .exited 1
      | .ok ds => if ds.length = 0 then .exited 1 else .proceeds
  | .KEYWORD => .proceeds
  | .NADA => .exited 0

/-- The dispatch loop of CheckDomainPermutations (src/main.go 275-378) viewed
through its queue: each iteration pops one candidate (blocking when the queue
is empty — modelled as `none`), spawns its probe task, and then breaks exactly
when `permutatedQ.Len()` is observed to be zero.  `intf` lists, per iteration,
the candidates concurrent probe tasks append between the pop and the length
check; `fuel` bounds how many iterations are unfolded, `none` meaning the loop
is still running or blocked. -/
def dispatchLoop (fuel : Nat) (q : List PermutatedDomain)
    (intf : List (List PermutatedDomain)) : Option (List PermutatedDomain) :=
  match fuel with
  | 0 => none
  | fuel + 1 =>
      match q with
      | [] => none
      | _ :: rest =>
          let observed := rest ++ intf.headD []
          if observed.isEmpty then some observed
          else dispatchLoop fuel observed intf.tail

/-- The shared state of one checking run: how many tokens sit in the `sem`
channel, how many spawned probe tasks have not yet finished, and how many
candidates are pending on `permutatedQ`. -/
structure CheckState where
  semOccupied : Nat
  inFlight : Nat
  pending : Nat
deriving DecidableEq

/-- The interleaved steps of CheckDomainPermutations/CheckKeywordPermutations:
the dispatcher sends on `sem` (blocking while `semOccupied = max`), pops a
pending candidate and spawns its probe task; a probe task finishes by receiving
from `sem`, either after a terminal classification or after putting its
candidate back on the queue.  Dispatch is taken as one step; splitting it does
not affect the number of in-flight probes. -/
inductive CheckStep (max : Nat) : CheckState → CheckState → Prop
  | dispatch {o f p : Nat} (ho : o < max) (hp : 0 < p) :
      CheckStep max ⟨o, f, p⟩ ⟨o + 1, f + 1, p - 1⟩
  | finishTerminal {o f p : Nat} (hf : 0 < f) :
      CheckStep max ⟨o, f, p⟩ ⟨o - 1, f - 1, p⟩
  | finishRequeue {o f p : Nat} (hf : 0 < f) :
      CheckStep max ⟨o, f, p⟩ ⟨o - 1, f - 1, p + 1⟩

/-- The semaphore invariant: every in-flight probe holds one `sem` token, and
the channel never holds more than its capacity. -/
def semInv (max : Nat) (s : CheckState) : Prop :=
  s.inFlight ≤ s.semOccupied ∧ s.semOccupied ≤ max

/-- Result of the pop phase of a dispatch iteration: the popped element was
indexed, type-asserted and handed to a spawned probe task, or the index /
assertion panicked. -/
inductive PopPhaseResult (α : Type) where
  | spawned (a : α)
  | panicked
deriving DecidableEq

/-- `dom[0]` with the subsequent type assertion: succeeds on a non-empty slice,
panics on the nil slice that an errored `Get` leaves behind. -/
def indexZero {α : Type} (l : List α) : PopPhaseResult α :=
  match l.head? with
  | some a => .spawned a
  | none => .panicked

/-- The pop phase of the dispatch loop (src/main.go 277-283 and 388-394):
`dom, err := permutatedQ.Get(1)`; when `err` is non-nil only `log.Error(err)`
runs — there is no `continue` or `return` — and `dom[0]` is then indexed and
type-asserted unconditionally.  The Bool records whether the error was logged. -/
def dispatchPopPhase {α : Type} (res : Except String (List α)) : Bool × PopPhaseResult α :=
  match res with
  | .error _ => (true, indexZero ([] : List α))
  | .ok l => (false, indexZero l)

/-- Exactly the PUBLIC counter is incremented, with `link` appended to the
PUBLIC list, and no other counter or list changes. -/
def onlyPublic (sIn sOut : Stats) (link : String) : Prop :=
  sOut.requests200 = sIn.requests200 + 1 ∧ sOut.requests403 = sIn.requests403 ∧
  sOut.requests404 = sIn.requests404 ∧ sOut.requests503 = sIn.requests503 ∧
  sOut.links200 = sIn.links200 ++ [link] ∧ sOut.links403 = sIn.links403 ∧
  sOut.links404 = sIn.links404 ∧ sOut.links503 = sIn.links503

/-- Exactly the FORBIDDEN counter is incremented, with `link` appended to the
FORBIDDEN list, and no other counter or list changes. -/
def onlyForbidden (sIn sOut : Stats) (link : String) : Prop :=
  sOut.requests200 = sIn.requests200 ∧ sOut.requests403 = sIn.requests403 + 1 ∧
  sOut.requests404 = sIn.requests404 ∧ sOut.requests503 = sIn.requests503 ∧
  sOut.links200 = sIn.links200 ∧ sOut.links403 = sIn.links403 ++ [link] ∧
  sOut.links404 = sIn.links404 ∧ sOut.links503 = sIn.links503

/-- Exactly the NOT_FOUND counter is incremented, with `link` appended to the
NOT_FOUND list, and no other counter or list changes. -/
def onlyNotFound (sIn sOut : Stats) (link : String) : Prop :=
  sOut.requests200 = sIn.requests200 ∧ sOut.requests403 = sIn.requests403 ∧
  sOut.requests404 = sIn.requests404 + 1 ∧ sOut.requests503 = sIn.requests503 ∧
  sOut.links200 = sIn.links200 ∧ sOut.links403 = sIn.links403 ∧
  sOut.links404 = sIn.links404 ++ [link] ∧ sOut.links503 = sIn.links503

/-- Exactly the RATE_LIMITED counter is incremented, with `link` appended to the
RATE_LIMITED list, and no other counter or list changes. -/
def onlyRateLimited (sIn sOut : Stats) (link : String) : Prop :=
  sOut.requests200 = sIn.requests200 ∧ sOut.requests403 = sIn.requests403 ∧
  sOut.requests404 = sIn.requests404 ∧ sOut.requests503 = sIn.requests503 + 1 ∧
  sOut.links200 = sIn.links200 ∧ sOut.links403 = sIn.links403 ∧
  sOut.links404 = sIn.links404 ∧ sOut.links503 = sIn.links503 ++ [link]

/-- The outcome shared by all handled network-failure paths: the candidate is
re-inserted, the error is logged unless its text contains "time", the stats are
untouched and the `sem` token is released once. -/
def requeueOutcome (s : Stats) (logged : Bool) : ProbeOutcome :=
  { stats := s, requeued := true, errorLogged := logged, unknownLogged := false,
    semReleases := 1, panicked := false }

/-- A probe outcome that records nothing: stats untouched, no requeue, no log,
one `sem` release. -/
def silentOutcome (s : Stats) : ProbeOutcome :=
  { stats := s, requeued := false, errorLogged := false, unknownLogged := false,
    semReleases := 1, panicked := false }

/-- A sample candidate used by concrete witnesses. -/
def pdSample : PermutatedDomain :=
  ⟨"acme.s3.amazonaws.com", ⟨"acme.com", "acme", "com", "acme.com"⟩⟩

/-- A sample keyword candidate used by concrete witnesses. -/
def kwSample : Keyword := ⟨"acme-backup", "acme"⟩

/-- A sample normalizer whose `idna.ToASCII` is the identity and whose
extractor always finds root `acme`, suffix `com`. -/
def nzOk : Normalizer := ⟨fun s => .ok s, fun _ => ("acme", "com")⟩

/-- A sample normalizer whose `idna.ToASCII` fails on every input, as it does
on a malformed punycode label. -/
def nzErr : Normalizer := ⟨fun _ => .error "idna: invalid label", fun _ => ("", "")⟩

/-- A sample normalizer whose `idna.ToASCII` converts every input to a
different (punycode) string, as it does on internationalized input. -/
def nzBad : Normalizer := ⟨fun _ => .ok "xn--acme", fun _ => ("acme", "com")⟩

/-- `semInv` is preserved by every step of the checking run. -/
theorem checkStep_semInv {max : Nat} {s t : CheckState}
    (hst : CheckStep max s t) (h : semInv max s) : semInv max t := by
  rcases h with ⟨h1, h2⟩
  cases hst with
  | dispatch ho hp =>
      simp only [semInv] at *
      omega
  | finishTerminal hf =>
      simp only [semInv] at *
      omega
  | finishRequeue hf =>
      simp only [semInv] at *
      omega

/-- C3: domain generation returns the templated substitutions in template order
followed by exactly two extra hostnames — `root.suffix.serviceSuffix` and
`(root+suffix with dots removed).serviceSuffix` — while keyword generation
returns only the templated substitutions; with templates `["%s.%s"]`, service
suffix `"s3.amazonaws.com"` and target root `"acme"`, suffix `"com"`, the
output is exactly the three listed hostnames. -/
theorem c3_theorem (domain suffix s3url keyword : String) (perms : List String) :
    PermutateDomain domain suffix s3url perms =
      (perms.map (fun p => Sprintf p [domain, s3url])) ++
        [Sprintf "%s.%s.%s" [domain, suffix, s3url],
         Sprintf "%s.%s" [removeDots (Sprintf "%s.%s" [domain, suffix]), s3url]] ∧
    (PermutateDomain domain suffix s3url perms).length = perms.length + 2 ∧
    PermutateKeyword keyword s3url perms = perms.map (fun p => Sprintf p [keyword, s3url]) ∧
    (PermutateKeyword keyword s3url perms).length = perms.length ∧
    PermutateDomain "acme" "com" "s3.amazonaws.com" ["%s.%s"] =
      ["acme.s3.amazonaws.com", "acme.com.s3.amazonaws.com", "acmecom.s3.amazonaws.com"] ∧
    PermutateKeyword "acme" "s3.amazonaws.com" ["%s.%s"] = ["acme.s3.amazonaws.com"] := by
  refine ⟨rfl, ?_, rfl, ?_, ?_, ?_⟩
  · simp [PermutateDomain]
  · simp [PermutateKeyword]
  · rfl
  · rfl

/-- C1 (amended): after a first response of 307 the prober issues one fresh GET
to the `Location` value, but classifies the second response only when it is 200
(recorded PUBLIC with the redirect target as the link) or 403 (recorded
FORBIDDEN — against the original permutation in domain mode, the redirect
target in keyword mode); a second status of 404, 503, another 307 or anything
else increments no counter, appends no link, logs nothing and requeues
nothing.  A second 307 is not followed. -/
theorem c1_theorem (pd : PermutatedDomain) (kw : Keyword) (s : Stats)
    (loc l2 : String) (st2 : Nat) :
    (st2 = 200 →
      onlyPublic s (CheckDomainProbe pd ⟨none, .ok ⟨307, loc⟩, none, .ok ⟨st2, l2⟩⟩ s).stats loc ∧
      onlyPublic s (CheckKeywordProbe kw ⟨none, .ok ⟨307, loc⟩, none, .ok ⟨st2, l2⟩⟩ s).stats loc) ∧
    (st2 = 403 →
      onlyForbidden s (CheckDomainProbe pd ⟨none, .ok ⟨307, loc⟩, none, .ok ⟨st2, l2⟩⟩ s).stats
        pd.Permutation ∧
      onlyForbidden s (CheckKeywordProbe kw ⟨none, .ok ⟨307, loc⟩, none, .ok ⟨st2, l2⟩⟩ s).stats
        loc) ∧
    (st2 ≠ 200 → st2 ≠ 403 →
      CheckDomainProbe pd ⟨none, .ok ⟨307, loc⟩, none, .ok ⟨st2, l2⟩⟩ s = silentOutcome s ∧
      CheckKeywordProbe kw ⟨none, .ok ⟨307, loc⟩, none, .ok ⟨st2, l2⟩⟩ s = silentOutcome s) := by
  refine ⟨?_, ?_, ?_⟩
  · rintro rfl
    constructor
    · simp [CheckDomainProbe, onlyPublic, Stats.IncRequests200, Stats.Add200Link]
    · simp [CheckKeywordProbe, onlyPublic, Stats.IncRequests200, Stats.Add200Link]
  · rintro rfl
    constructor
    · simp [CheckDomainProbe, onlyForbidden, Stats.IncRequests403, Stats.Add403Link]
    · simp [CheckKeywordProbe, onlyForbidden, Stats.IncRequests403, Stats.Add403Link]
  · intro h200 h403
    constructor
    · simp [CheckDomainProbe, silentOutcome, h200, h403]
    · simp [CheckKeywordProbe, silentOutcome, h200, h403]

/-- C1 counterexample: a domain-mode probe whose 307 redirect resolves to 404
records nothing at all — NOT_FOUND counter still 0, NOT_FOUND link list still
empty, nothing logged — where the claim requires the second response to be
classified NOT_FOUND by the same table as the first. -/
theorem c1_counterexample :
    (CheckDomainProbe ⟨"acme.s3.amazonaws.com", ⟨"acme.com", "acme", "com", "acme.com"⟩⟩
        ⟨none, .ok ⟨307, "http://acme.s3-eu-west-1.amazonaws.com"⟩, none, .ok ⟨404, ""⟩⟩
        NewStats).stats.requests404 = 0 ∧
    (CheckDomainProbe ⟨"acme.s3.amazonaws.com", ⟨"acme.com", "acme", "com", "acme.com"⟩⟩
        ⟨none, .ok ⟨307, "http://acme.s3-eu-west-1.amazonaws.com"⟩, none, .ok ⟨404, ""⟩⟩
        NewStats).stats.links404 = [] := by
  exact ⟨rfl, rfl⟩

/-- C1 witness: the amended redirect behaviour evaluated at concrete inputs —
a redirected 200 records PUBLIC with the redirect target, and a redirected 404
produces the silent outcome. -/
theorem c1_witness :
    onlyPublic NewStats
      (CheckDomainProbe pdSample
        ⟨none, .ok ⟨307, "http://acme.s3-eu-west-1.amazonaws.com"⟩, none, .ok ⟨200, ""⟩⟩
        NewStats).stats
      "http://acme.s3-eu-west-1.amazonaws.com" ∧
    CheckDomainProbe pdSample
        ⟨none, .ok ⟨307, "http://acme.s3-eu-west-1.amazonaws.com"⟩, none, .ok ⟨404, ""⟩⟩
        NewStats = silentOutcome NewStats := by
  constructor
  · exact ((c1_theorem pdSample kwSample NewStats
      "http://acme.s3-eu-west-1.amazonaws.com" "" 200).1 rfl).1
  · exact ((c1_theorem pdSample kwSample NewStats
      "http://acme.s3-eu-west-1.amazonaws.com" "" 404).2.2 (by decide) (by decide)).1

/-- C2 (amended): for every probe whose first response status is 200, 403, 404
or 503, exactly one Stats counter is incremented and one link appended — 200
increments PUBLIC and appends the probed hostname, 403 increments FORBIDDEN,
404 increments NOT_FOUND, 503 re-inserts the candidate and increments
RATE_LIMITED — with no other counter touched; but a 404 or 503 observed on the
second response after a 307 redirect increments nothing, appends nothing and
does not requeue. -/
theorem c2_theorem (pd : PermutatedDomain) (kw : Keyword) (s : Stats)
    (st : Nat) (l1 l2 : String) (sc : Option String) (second : NetResult) :
    (st = 200 →
      onlyPublic s (CheckDomainProbe pd ⟨none, .ok ⟨st, l1⟩, sc, second⟩ s).stats pd.Permutation ∧
      (CheckDomainProbe pd ⟨none, .ok ⟨st, l1⟩, sc, second⟩ s).requeued = false ∧
      onlyPublic s (CheckKeywordProbe kw ⟨none, .ok ⟨st, l1⟩, sc, second⟩ s).stats kw.Permutation ∧
      (CheckKeywordProbe kw ⟨none, .ok ⟨st, l1⟩, sc, second⟩ s).requeued = false) ∧
    (st = 403 →
      onlyForbidden s (CheckDomainProbe pd ⟨none, .ok ⟨st, l1⟩, sc, second⟩ s).stats
        pd.Permutation ∧
      (CheckDomainProbe pd ⟨none, .ok ⟨st, l1⟩, sc, second⟩ s).requeued = false ∧
      onlyForbidden s (CheckKeywordProbe kw ⟨none, .ok ⟨st, l1⟩, sc, second⟩ s).stats
        kw.Permutation ∧
      (CheckKeywordProbe kw ⟨none, .ok ⟨st, l1⟩, sc, second⟩ s).requeued = false) ∧
    (st = 404 →
      onlyNotFound s (CheckDomainProbe pd ⟨none, .ok ⟨st, l1⟩, sc, second⟩ s).stats
        pd.Permutation ∧
      (CheckDomainProbe pd ⟨none, .ok ⟨st, l1⟩, sc, second⟩ s).requeued = false ∧
      onlyNotFound s (CheckKeywordProbe kw ⟨none, .ok ⟨st, l1⟩, sc, second⟩ s).stats
        kw.Permutation ∧
      (CheckKeywordProbe kw ⟨none, .ok ⟨st, l1⟩, sc, second⟩ s).requeued = false) ∧
    (st = 503 →
      onlyRateLimited s (CheckDomainProbe pd ⟨none, .ok ⟨st, l1⟩, sc, second⟩ s).stats
        pd.Permutation ∧
      (CheckDomainProbe pd ⟨none, .ok ⟨st, l1⟩, sc, second⟩ s).requeued = true ∧
      onlyRateLimited s (CheckKeywordProbe kw ⟨none, .ok ⟨st, l1⟩, sc, second⟩ s).stats
        kw.Permutation ∧
      (CheckKeywordProbe kw ⟨none, .ok ⟨st, l1⟩, sc, second⟩ s).requeued = true) ∧
    (CheckDomainProbe pd ⟨none, .ok ⟨307, l1⟩, none, .ok ⟨404, l2⟩⟩ s = silentOutcome s ∧
     CheckKeywordProbe kw ⟨none, .ok ⟨307, l1⟩, none, .ok ⟨404, l2⟩⟩ s = silentOutcome s) ∧
    (CheckDomainProbe pd ⟨none, .ok ⟨307, l1⟩, none, .ok ⟨503, l2⟩⟩ s = silentOutcome s ∧
     CheckKeywordProbe kw ⟨none, .ok ⟨307, l1⟩, none, .ok ⟨503, l2⟩⟩ s = silentOutcome s) := by
  refine ⟨?_, ?_, ?_, ?_, ?_, ?_⟩
  · rintro rfl
    refine ⟨?_, rfl, ?_, rfl⟩
    · simp [CheckDomainProbe, onlyPublic, Stats.IncRequests200, Stats.Add200Link]
    · simp [CheckKeywordProbe, onlyPublic, Stats.IncRequests200, Stats.Add200Link]
  · rintro rfl
    refine ⟨?_, rfl, ?_, rfl⟩
    · simp [CheckDomainProbe, onlyForbidden, Stats.IncRequests403, Stats.Add403Link]
    · simp [CheckKeywordProbe, onlyForbidden, Stats.IncRequests403, Stats.Add403Link]
  · rintro rfl
    refine ⟨?_, rfl, ?_, rfl⟩
    · simp [CheckDomainProbe, onlyNotFound, Stats.IncRequests404, Stats.Add404Link]
    · simp [CheckKeywordProbe, onlyNotFound, Stats.IncRequests404, Stats.Add404Link]
  · rintro rfl
    refine ⟨?_, rfl, ?_, rfl⟩
    · simp [CheckDomainProbe, onlyRateLimited, Stats.IncRequests503, Stats.Add503Link]
    · simp [CheckKeywordProbe, onlyRateLimited, Stats.IncRequests503, Stats.Add503Link]
  · exact ⟨by simp [CheckDomainProbe, silentOutcome], by simp [CheckKeywordProbe, silentOutcome]⟩
  · exact ⟨by simp [CheckDomainProbe, silentOutcome], by simp [CheckKeywordProbe, silentOutcome]⟩

/-- C2 counterexample: a keyword-mode probe whose 307 redirect resolves to 503
neither increments RATE_LIMITED nor re-inserts the candidate — the claim
requires requeue-and-RATE_LIMITED for a post-redirect-resolution 503. -/
theorem c2_counterexample :
    (CheckKeywordProbe ⟨"acme-data", "acme"⟩
        ⟨none, .ok ⟨307, "http://acme-data.s3-eu-west-1.amazonaws.com"⟩, none, .ok ⟨503, ""⟩⟩
        NewStats).stats.requests503 = 0 ∧
    (CheckKeywordProbe ⟨"acme-data", "acme"⟩
        ⟨none, .ok ⟨307, "http://acme-data.s3-eu-west-1.amazonaws.com"⟩, none, .ok ⟨503, ""⟩⟩
        NewStats).requeued = false := by
  exact ⟨rfl, rfl⟩

/-- C2 witness: the amended classification evaluated at concrete inputs — a
direct 503 requeues and increments only RATE_LIMITED, and a redirected 503
produces the silent outcome. -/
theorem c2_witness :
    onlyRateLimited NewStats
      (CheckDomainProbe pdSample ⟨none, .ok ⟨503, ""⟩, none, .ok ⟨200, ""⟩⟩ NewStats).stats
      "acme.s3.amazonaws.com" ∧
    (CheckDomainProbe pdSample ⟨none, .ok ⟨503, ""⟩, none, .ok ⟨200, ""⟩⟩ NewStats).requeued
      = true ∧
    CheckKeywordProbe kwSample ⟨none, .ok ⟨307, "http://x"⟩, none, .ok ⟨503, ""⟩⟩ NewStats
      = silentOutcome NewStats := by
  have h := c2_theorem pdSample kwSample NewStats 503 "" "" none (.ok ⟨200, ""⟩)
  have h2 := c2_theorem pdSample kwSample NewStats 503 "http://x" "" none (.ok ⟨200, ""⟩)
  exact ⟨(h.2.2.2.1 rfl).1, (h.2.2.2.1 rfl).2.1, (h2.2.2.2.2.2).2⟩

/-- C10: when a 307 redirect's follow-up returns 403, the domain-mode probe
records the original permutation as the FORBIDDEN link while the keyword-mode
probe records the redirect `Location` value, so the two modes record different
links whenever permutation and location differ. -/
theorem c10_theorem (pd : PermutatedDomain) (kw : Keyword) (s : Stats) (loc : String) :
    (CheckDomainProbe pd ⟨none, .ok ⟨307, loc⟩, none, .ok ⟨403, ""⟩⟩ s).stats.links403
      = s.links403 ++ [pd.Permutation] ∧
    (CheckKeywordProbe kw ⟨none, .ok ⟨307, loc⟩, none, .ok ⟨403, ""⟩⟩ s).stats.links403
      = s.links403 ++ [loc] ∧
    (pd.Permutation ≠ loc →
      (CheckDomainProbe pd ⟨none, .ok ⟨307, loc⟩, none, .ok ⟨403, ""⟩⟩ s).stats.links403
        ≠ (CheckKeywordProbe kw ⟨none, .ok ⟨307, loc⟩, none, .ok ⟨403, ""⟩⟩ s).stats.links403) := by
  refine ⟨?_, ?_, ?_⟩
  · simp [CheckDomainProbe, Stats.IncRequests403, Stats.Add403Link]
  · simp [CheckKeywordProbe, Stats.IncRequests403, Stats.Add403Link]
  · intro hne
    simp [CheckDomainProbe, CheckKeywordProbe, Stats.IncRequests403, Stats.Add403Link, hne]

/-- C10 witness: at concrete inputs with distinct permutation and redirect
target, the two modes record distinct FORBIDDEN links. -/
theorem c10_witness :
    (CheckDomainProbe pdSample
        ⟨none, .ok ⟨307, "http://acme.s3-eu-west-1.amazonaws.com"⟩, none, .ok ⟨403, ""⟩⟩
        NewStats).stats.links403
      ≠ (CheckKeywordProbe kwSample
        ⟨none, .ok ⟨307, "http://acme.s3-eu-west-1.amazonaws.com"⟩, none, .ok ⟨403, ""⟩⟩
        NewStats).stats.links403 := by
  exact (c10_theorem pdSample kwSample NewStats
    "http://acme.s3-eu-west-1.amazonaws.com").2.2 (by decide)

/-- C4 (amended): a domain input changed by punycode normalization and an
input whose extracted root or suffix is empty are skipped, with the run
continuing over the remaining inputs; but an input on which `idna.ToASCII`
itself errors (bad punycode) is `log.Fatal`, terminating the whole run. -/
theorem c4_theorem (nz : Normalizer) (input puny e : String) (rest : List String) :
    (nz.toASCII input = .ok puny → input ≠ puny → processDomainInput nz input = .skipped) ∧
    (nz.toASCII input = .ok input →
      ((nz.extract input).1 = "" ∨ (nz.extract input).2 = "") →
      processDomainInput nz input = .skipped) ∧
    (input ≠ "" → nz.toASCII input = .error e → processDomainInput nz input = .fatal e) ∧
    (processDomainInput nz input = .skipped →
      PermutateDomainRunnerValidate nz (input :: rest) = PermutateDomainRunnerValidate nz rest) := by
  refine ⟨?_, ?_, ?_, ?_⟩
  · intro ha hne
    by_cases hin : input = ""
    · simp [processDomainInput, hin]
    · simp [processDomainInput, hin, ha, hne]
  · intro ha hroot
    by_cases hin : input = ""
    · simp [processDomainInput, hin]
    · simp [processDomainInput, hin, ha, hroot]
  · intro hin ha
    simp [processDomainInput, hin, ha]
  · intro hskip
    simp [PermutateDomainRunnerValidate, hskip]

/-- C4 counterexample: on an input whose punycode conversion errors, the
per-input processing is `log.Fatal`, not a skip — the process terminates
instead of continuing with the remaining inputs. -/
theorem c4_counterexample :
    processDomainInput nzErr "xn--badpuny.com" = .fatal "idna: invalid label" ∧
    InputResult.fatal "idna: invalid label" ≠ InputResult.skipped := by
  exact ⟨rfl, by decide⟩

/-- C4 witness: the amended per-input behaviour at concrete inputs — an
internationalized input is skipped and dropped from the validated list, and a
failing punycode conversion is fatal. -/
theorem c4_witness :
    processDomainInput nzBad "bücket.com" = .skipped ∧
    processDomainInput nzErr "xn--a.com" = .fatal "idna: invalid label" ∧
    PermutateDomainRunnerValidate nzBad ["bücket.com"] = .ok [] := by
  refine ⟨?_, ?_, ?_⟩
  · exact (c4_theorem nzBad "bücket.com" "xn--acme" "" []).1 rfl (by decide)
  · exact (c4_theorem nzErr "xn--a.com" "" "idna: invalid label" []).2.2.1 (by decide) rfl
  · exact ((c4_theorem nzBad "bücket.com" "xn--acme" "" []).2.2.2
      ((c4_theorem nzBad "bücket.com" "xn--acme" "" []).1 rfl (by decide))).trans rfl

/-- C5 (amended): a construction or transport failure of the initial request,
and a transport failure of the redirect-follow request, each re-insert the
candidate into the pending queue — silently when the error text contains
"time", after logging otherwise — with no counter incremented; but a
redirect-follow request-construction failure is logged unconditionally and
does not re-insert the candidate (the probe then dereferences the nil
request, releasing nothing). -/
theorem c5_theorem (pd : PermutatedDomain) (kw : Keyword) (s : Stats) (e loc : String)
    (first second : NetResult) (sc : Option String) :
    CheckDomainProbe pd ⟨some e, first, sc, second⟩ s
      = requeueOutcome s (!(goContains e "time")) ∧
    CheckKeywordProbe kw ⟨some e, first, sc, second⟩ s
      = requeueOutcome s (!(goContains e "time")) ∧
    CheckDomainProbe pd ⟨none, .error e, sc, second⟩ s
      = requeueOutcome s (!(goContains e "time")) ∧
    CheckKeywordProbe kw ⟨none, .error e, sc, second⟩ s
      = requeueOutcome s (!(goContains e "time")) ∧
    CheckDomainProbe pd ⟨none, .ok ⟨307, loc⟩, none, .error e⟩ s
      = requeueOutcome s (!(goContains e "time")) ∧
    CheckKeywordProbe kw ⟨none, .ok ⟨307, loc⟩, none, .error e⟩ s
      = requeueOutcome s (!(goContains e "time")) ∧
    CheckDomainProbe pd ⟨none, .ok ⟨307, loc⟩, some e, second⟩ s
      = { stats := s, requeued := false, errorLogged := true, unknownLogged := false,
          semReleases := 0, panicked := true } ∧
    CheckKeywordProbe kw ⟨none, .ok ⟨307, loc⟩, some e, second⟩ s
      = { stats := s, requeued := false, errorLogged := true, unknownLogged := false,
          semReleases := 0, panicked := true } := by
  refine ⟨rfl, rfl, rfl, rfl, ?_, ?_, ?_, ?_⟩
  · simp [CheckDomainProbe, requeueOutcome]
  · simp [CheckKeywordProbe, requeueOutcome]
  · simp [CheckDomainProbe]
  · simp [CheckKeywordProbe]

/-- C5 counterexample: a probe whose 307 redirect carries a `Location` value
on which request construction fails is not re-inserted into the pending queue,
where the claim requires every network-level failure to end in a requeue. -/
theorem c5_counterexample :
    (CheckDomainProbe ⟨"acme-prod.s3.amazonaws.com", ⟨"acme.com", "acme", "com", "acme.com"⟩⟩
        ⟨none, .ok ⟨307, "http://%zz"⟩, some "parse http://%zz: invalid URL escape",
         .error "unused"⟩
        NewStats).requeued = false := by
  rfl

/-- C6 (amended): in a DOMAIN run, zero valid normalized targets — an empty
`domainQ` after validation, or a fatal normalization error — exits the process
with code 1, and otherwise the run proceeds with no exit code set at this
stage; selecting no run mode exits with code 0; a KEYWORD run performs no
zero-target check and always proceeds into the processing phase. -/
theorem c6_theorem (nz : Normalizer) (domains : List String) :
    (PermutateDomainRunnerValidate nz domains = .ok [] →
      mainOutcome .DOMAIN nz domains = .exited 1) ∧
    (∀ e, PermutateDomainRunnerValidate nz domains = .error e →
      mainOutcome .DOMAIN nz domains = .exited 1) ∧
    (∀ d ds, PermutateDomainRunnerValidate nz domains = .ok (d :: ds) →
      mainOutcome .DOMAIN nz domains = .proceeds) ∧
    mainOutcome .NADA nz domains = .exited 0 ∧
    mainOutcome .KEYWORD nz domains = .proceeds := by
  refine ⟨?_, ?_, ?_, rfl, rfl⟩
  · intro h
    simp [mainOutcome, h]
  · intro e h
    simp [mainOutcome, h]
  · intro d ds h
    simp [mainOutcome, h]

/-- C6 counterexample: a KEYWORD run whose input produced zero targets does
not exit with code 1 — it proceeds into the processing phase, because the
keyword runner contains no zero-target check. -/
theorem c6_counterexample :
    mainOutcome .KEYWORD nzOk [] = .proceeds ∧
    RunOutcome.proceeds ≠ RunOutcome.exited 1 := by
  exact ⟨rfl, by decide⟩

/-- C6 witness: a DOMAIN run over an empty input list exits with code 1, and a
run with no mode selected exits with code 0. -/
theorem c6_witness :
    mainOutcome .DOMAIN nzOk [] = .exited 1 ∧
    mainOutcome .NADA nzOk [] = .exited 0 := by
  exact ⟨(c6_theorem nzOk []).1 rfl, (c6_theorem nzOk []).2.2.2.1⟩

/-- C7: the dispatch loop exits only at the point where, immediately after
dispatching a candidate, the queue length is observed to be zero — whenever
the loop returns, the observed queue was empty — and conversely, when the
post-dispatch observation is empty the loop exits right there. -/
theorem c7_theorem :
    (∀ (fuel : Nat) (q : List PermutatedDomain) (intf : List (List PermutatedDomain))
        (out : List PermutatedDomain),
      dispatchLoop fuel q intf = some out → out = []) ∧
    (∀ (fuel : Nat) (c : PermutatedDomain) (rest puts : List PermutatedDomain)
        (intf : List (List PermutatedDomain)), rest ++ puts = [] →
      dispatchLoop (fuel + 1) (c :: rest) (puts :: intf) = some []) := by
  constructor
  · intro fuel
    induction fuel with
    | zero =>
        intro q intf out h
        simp [dispatchLoop] at h
    | succ n ih =>
        intro q intf out h
        match q with
        | [] => simp [dispatchLoop] at h
        | c :: rest =>
            rw [dispatchLoop] at h
            by_cases he : (rest ++ intf.headD []).isEmpty
            · simp only [he, if_true] at h
              have := List.isEmpty_iff.mp he
              rw [← Option.some_inj.mp h]
              exact this
            · simp only [he, if_false] at h
              exact ih _ _ _ h
  · intro fuel c rest puts intf h
    rw [dispatchLoop]
    simp [h]

/-- C7 witness: with one candidate pending and no concurrent interference, the
loop dispatches it, observes the empty queue and exits with the empty queue. -/
theorem c7_witness :
    dispatchLoop 1 [pdSample] [[]] = some [] ∧ ([] : List PermutatedDomain) = [] := by
  constructor
  · exact c7_theorem.2 0 pdSample [] [] [] rfl
  · exact c7_theorem.1 1 [pdSample] [[]] [] (c7_theorem.2 0 pdSample [] [] [] rfl)

/-- C8: in every state reachable from the start of a checking run, the number
of in-flight probe tasks is at most the configured concurrency — the
dispatcher holds a `sem` token for each spawned probe and the channel capacity
is `max` — and every probe path that completes (does not dereference the nil
request) releases its token exactly once, whether it ends in a terminal
classification or a requeue. -/
theorem c8_theorem (max p0 : Nat) (s : CheckState)
    (h : Relation.ReflTransGen (CheckStep max) ⟨0, 0, p0⟩ s) :
    s.inFlight ≤ max ∧
    (∀ (pd : PermutatedDomain) (net : ProbeNet) (st : Stats),
      (CheckDomainProbe pd net st).panicked = false →
      (CheckDomainProbe pd net st).semReleases = 1) ∧
    (∀ (kw : Keyword) (net : ProbeNet) (st : Stats),
      (CheckKeywordProbe kw net st).panicked = false →
      (CheckKeywordProbe kw net st).semReleases = 1) := by
  refine ⟨?_, ?_, ?_⟩
  · have hinv : semInv max s := by
      induction h with
      | refl => exact ⟨Nat.le_refl 0, Nat.zero_le max⟩
      | tail hst step ih => exact checkStep_semInv step ih
    exact hinv.1.trans hinv.2
  · intro pd net st hnp
    rcases net with ⟨fc, first, sc, second⟩
    cases fc with
    | some e => rfl
    | none =>
        cases first with
        | error e1 => rfl
        | ok r =>
            by_cases h200 : r.status = 200
            · simp [CheckDomainProbe, h200]
            · by_cases h307 : r.status = 307
              · cases sc with
                | some e2 =>
                    exfalso
                    simp [CheckDomainProbe, h200, h307] at hnp
                | none =>
                    cases second with
                    | error e2 => simp [CheckDomainProbe, h200, h307]
                    | ok r2 =>
                        by_cases i200 : r2.status = 200
                        · simp [CheckDomainProbe, h200, h307, i200]
                        · by_cases i403 : r2.status = 403
                          · simp [CheckDomainProbe, h200, h307, i200, i403]
                          · simp [CheckDomainProbe, h200, h307, i200, i403]
              · by_cases h403 : r.status = 403
                · simp [CheckDomainProbe, h200, h307, h403]
                · by_cases h404 : r.status = 404
                  · simp [CheckDomainProbe, h200, h307, h403, h404]
                  · by_cases h503 : r.status = 503
                    · simp [CheckDomainProbe, h200, h307, h403, h404, h503]
                    · simp [CheckDomainProbe, h200, h307, h403, h404, h503]
  · intro kw net st hnp
    rcases net with ⟨fc, first, sc, second⟩
    cases fc with
    | some e => rfl
    | none =>
        cases first with
        | error e1 => rfl
        | ok r =>
            by_cases h200 : r.status = 200
            · simp [CheckKeywordProbe, h200]
            · by_cases h307 : r.status = 307
              · cases sc with
                | some e2 =>
                    exfalso
                    simp [CheckKeywordProbe, h200, h307] at hnp
                | none =>
                    cases second with
                    | error e2 => simp [CheckKeywordProbe, h200, h307]
                    | ok r2 =>
                        by_cases i200 : r2.status = 200
                        · simp [CheckKeywordProbe, h200, h307, i200]
                        · by_cases i403 : r2.status = 403
                          · simp [CheckKeywordProbe, h200, h307, i200, i403]
                          · simp [CheckKeywordProbe, h200, h307, i200, i403]
              · by_cases h403 : r.status = 403
                · simp [CheckKeywordProbe, h200, h307, h403]
                · by_cases h404 : r.status = 404
                  · simp [CheckKeywordProbe, h200, h307, h403, h404]
                  · by_cases h503 : r.status = 503
                    · simp [CheckKeywordProbe, h200, h307, h403, h404, h503]
                    · simp [CheckKeywordProbe, h200, h307, h403, h404, h503]

/-- C8 witness: after one dispatch step with concurrency 2 the state has one
in-flight probe, within the bound, and a concrete successful probe releases
its token exactly once. -/
theorem c8_witness :
    (CheckState.mk 1 1 2).inFlight ≤ 2 ∧
    (CheckDomainProbe pdSample ⟨none, .ok ⟨200, ""⟩, none, .ok ⟨200, ""⟩⟩
      NewStats).semReleases = 1 := by
  have h := c8_theorem 2 3 ⟨1, 1, 2⟩
    (Relation.ReflTransGen.single (CheckStep.dispatch (by decide) (by decide)))
  exact ⟨h.1, h.2.1 pdSample ⟨none, .ok ⟨200, ""⟩, none, .ok ⟨200, ""⟩⟩ NewStats rfl⟩

/-- C9: when the queue pop returns an error, the dispatch body logs it and
still indexes position 0 of the popped result — the error check guards
nothing else, so the nil slice an errored `Get` leaves behind is indexed and
panics — while an error-free pop of a non-empty slice spawns its head without
logging. -/
theorem c9_theorem (e : String) (pd : PermutatedDomain) (rest : List PermutatedDomain) :
    dispatchPopPhase (Except.error e : Except String (List PermutatedDomain))
      = (true, PopPhaseResult.panicked) ∧
    dispatchPopPhase (Except.ok (pd :: rest)) = (false, PopPhaseResult.spawned pd) := by
  exact ⟨rfl, rfl⟩

end Slurp
